import Mathlib

/-!
Verification of the geodetic core of the England_Weather_Forecast repository
(file map.py): the OSGB36 transverse-Mercator coordinate transform
`get_easting_northing_from_gps_lat_long`, the 0.05-degree grid snapping and
exact-cell raster lookup `retrval` used by `rrt_value`, the nearest-neighbour
coastal join, and the `rrt_value` query orchestrator.

Modelling conventions: Python floats are embedded as exact real numbers
(for the transform) or exact rationals (for the grid/raster layer, whose
inputs are finite decimals); `np.round`, which rounds halves to even, is
embedded as an exact round-half-to-even on rationals; a non-finite (NaN)
input coordinate is embedded as `Option.none`; a raised exception that
aborts the batch is embedded as `Except.error`.
-/

namespace EWMap

open Real

/-- Data structure for a global ellipsoid, as in map.py: the constructor
stores `a`, `b`, the derived `n = (a-b)/(a+b)` and `e2 = (a^2-b^2)/a^2`,
the scale `F_0`, and `H = 0`. -/
structure Ellipsoid where
  a : ℝ
  b : ℝ
  n : ℝ
  e2 : ℝ
  F_0 : ℝ
  H : ℝ

/-- The Ellipsoid constructor of map.py. -/
noncomputable def mkEllipsoid (a b F_0 : ℝ) : Ellipsoid :=
  { a := a, b := b, n := (a - b) / (a + b), e2 := (a ^ 2 - b ^ 2) / a ^ 2,
    F_0 := F_0, H := 0 }

/-- Data structure for a global datum, as in map.py: an Ellipsoid plus the
projection origin `phi_0, lam_0`, the false origin `E_0, N_0`, and `H`. -/
structure Datum extends Ellipsoid where
  phi_0 : ℝ
  lam_0 : ℝ
  E_0 : ℝ
  N_0 : ℝ

/-- The Datum constructor of map.py (super().__init__ plus the origin
fields, with `H` overridden). -/
noncomputable def mkDatum (a b F_0 phi_0 lam_0 E_0 N_0 H : ℝ) : Datum :=
  { toEllipsoid := { mkEllipsoid a b F_0 with H := H },
    phi_0 := phi_0, lam_0 := lam_0, E_0 := E_0, N_0 := N_0 }

/-- Degree-to-radian conversion (np.deg2rad). -/
noncomputable def deg2rad (x : ℝ) : ℝ := x * π / 180

/-- The datum constructed inside get_easting_northing_from_gps_lat_long. -/
noncomputable def osgb36 : Datum :=
  mkDatum 6377563.396 6356256.910 0.9996012717
    (deg2rad 49.0) (deg2rad (-2)) 400000 (-100000) 24.7

/-- The ellipsoid `ell` constructed inside
get_easting_northing_from_gps_lat_long; the source builds it and never
uses it in the computation. -/
noncomputable def wgs84 : Ellipsoid := mkEllipsoid 6378137 6356752.3142 0.9996

/-- OSGB36 easting/northing from latitude/longitude, as computed by
get_easting_northing_from_gps_lat_long in map.py for a single point.
When `rads` is false (the source's default) the inputs are first converted
from degrees to radians; the rest of the computation is the straight-line
arithmetic of lines 77-99 of map.py, with Python's float `**` on a
positive base embedded as real rpow. -/
noncomputable def get_easting_northing_from_gps_lat_long
    (phi0 lam0 : ℝ) (rads : Bool) : ℝ × ℝ :=
  let dat := osgb36
  let phi := if rads = false then deg2rad phi0 else phi0
  let lam := if rads = false then deg2rad lam0 else lam0
  let n := (dat.a - dat.b) / (dat.a + dat.b)
  let v := dat.a * dat.F_0 * (1 - dat.e2 * sin phi ^ 2) ^ (-0.5 : ℝ)
  let rho := dat.a * dat.F_0 * (1 - dat.e2) * (1 - dat.e2 * sin phi ^ 2) ^ (-1.5 : ℝ)
  let eta2 := v / rho - 1
  let M := dat.b * dat.F_0 *
    ((1 + n + 5 / 4 * n ^ 2 + 5 / 4 * n ^ 3) * (phi - dat.phi_0) -
      (3 * n + 3 * n ^ 2 + 21 / 8 * n ^ 3) * sin (phi - dat.phi_0) * cos (phi + dat.phi_0) +
      (15 / 8 * n ^ 2 + 15 / 8 * n ^ 3) * sin (2 * (phi - dat.phi_0)) * cos (2 * (phi + dat.phi_0)) -
      35 / 24 * n ^ 3 * sin (3 * (phi - dat.phi_0)) * cos (3 * (phi - dat.phi_0)))
  let I := M + dat.N_0
  let II := v / 2 * sin phi * cos phi
  let III := v / 24 * sin phi * cos phi ^ 3 * (5 - tan phi ^ 2 + 9 * eta2)
  let IIIA := v / 720 * sin phi * cos phi ^ 5 * (61 - 58 * tan phi ^ 2 + tan phi ^ 4)
  let IV := v * cos phi
  let V := v / 6 * cos phi ^ 3 * (v / rho - tan phi ^ 2)
  let VI := v / 120 * cos phi ^ 5 *
    (5 - 18 * tan phi ^ 2 + tan phi ^ 4 + 14 * eta2 - 58 * tan phi ^ 2 * eta2)
  let N := I + II * (lam - dat.lam_0) ^ 2 + III * (lam - dat.lam_0) ^ 4 +
    IIIA * (lam - dat.lam_0) ^ 6
  let E := dat.E_0 + IV * (lam - dat.lam_0) + V * (lam - dat.lam_0) ^ 3 +
    VI * (lam - dat.lam_0) ^ 5
  (E, N)

/-- The transverse-Mercator formulas exactly as written in the
specification (section 4.1), on the spec's datum constants
(a=6377563.396, b=6356256.910, F0=0.9996012717, phi0=49 deg, lam0=-2 deg,
E0=400000, N0=-100000), with e2=(a^2-b^2)/a^2 and n=(a-b)/(a+b) as in the
spec's data model, for inputs in radians. -/
noncomputable def transform_spec (phi lam : ℝ) : ℝ × ℝ :=
  let a : ℝ := 6377563.396
  let b : ℝ := 6356256.910
  let F0 : ℝ := 0.9996012717
  let phi0 : ℝ := deg2rad 49
  let lam0 : ℝ := deg2rad (-2)
  let E0 : ℝ := 400000
  let N0 : ℝ := -100000
  let e2 := (a ^ 2 - b ^ 2) / a ^ 2
  let n := (a - b) / (a + b)
  let v := a * F0 * (1 - e2 * sin phi ^ 2) ^ (-(1 / 2) : ℝ)
  let rho := a * F0 * (1 - e2) * (1 - e2 * sin phi ^ 2) ^ (-(3 / 2) : ℝ)
  let eta2 := v / rho - 1
  let M := b * F0 *
    ((1 + n + 5 / 4 * n ^ 2 + 5 / 4 * n ^ 3) * (phi - phi0) -
      (3 * n + 3 * n ^ 2 + 21 / 8 * n ^ 3) * sin (phi - phi0) * cos (phi + phi0) +
      (15 / 8 * n ^ 2 + 15 / 8 * n ^ 3) * sin (2 * (phi - phi0)) * cos (2 * (phi + phi0)) -
      35 / 24 * n ^ 3 * sin (3 * (phi - phi0)) * cos (3 * (phi - phi0)))
  let I := M + N0
  let II := v / 2 * sin phi * cos phi
  let III := v / 24 * sin phi * cos phi ^ 3 * (5 - tan phi ^ 2 + 9 * eta2)
  let IIIA := v / 720 * sin phi * cos phi ^ 5 * (61 - 58 * tan phi ^ 2 + tan phi ^ 4)
  let IV := v * cos phi
  let V := v / 6 * cos phi ^ 3 * (v / rho - tan phi ^ 2)
  let VI := v / 120 * cos phi ^ 5 *
    (5 - 18 * tan phi ^ 2 + tan phi ^ 4 + 14 * eta2 - 58 * tan phi ^ 2 * eta2)
  let dLam := lam - lam0
  (E0 + IV * dLam + V * dLam ^ 3 + VI * dLam ^ 5,
   I + II * dLam ^ 2 + III * dLam ^ 4 + IIIA * dLam ^ 6)

/-- Claim C1: for every latitude/longitude input in radians, the coordinate
transform of map.py returns exactly the easting and northing given by the
spec's transverse-Mercator formula block on the specified datum, including
the M series whose last term is -35/24 n^3 sin(3(phi-phi0)) cos(3(phi-phi0)). -/
theorem transform_meets_spec_formulas (phi lam : ℝ) :
    get_easting_northing_from_gps_lat_long phi lam true = transform_spec phi lam := by
  unfold get_easting_northing_from_gps_lat_long transform_spec
  norm_num [osgb36, mkDatum, mkEllipsoid]

/-- Claim C10: the rads flag only controls the initial degree-to-radian
conversion: calling the transform on degrees with rads=false gives exactly
the result of calling it on the radian equivalents with rads=true. -/
theorem rads_flag_only_converts_input (phi lam : ℝ) :
    get_easting_northing_from_gps_lat_long phi lam false =
      get_easting_northing_from_gps_lat_long (deg2rad phi) (deg2rad lam) true := rfl

/-- Round half to even on an exact rational, the rounding used by np.round
for whole numbers. -/
def rhe (q : ℚ) : ℤ :=
  if q - ⌊q⌋ < 1 / 2 then ⌊q⌋
  else if 1 / 2 < q - ⌊q⌋ then ⌊q⌋ + 1
  else if Even ⌊q⌋ then ⌊q⌋ else ⌊q⌋ + 1

/-- np.round to `d` decimal places on an exact rational. -/
def np_round (q : ℚ) (d : ℕ) : ℚ := (rhe (q * 10 ^ d) : ℚ) / 10 ^ d

/-- The grid snapping applied by rrt_value to each query coordinate:
np.round(np.round(x / 0.05, 0) * 0.05, 2). -/
def snap (x : ℚ) : ℚ := np_round (np_round (x / 0.05) 0 * 0.05) 2

lemma rhe_intCast (m : ℤ) : rhe (m : ℚ) = m := by
  simp [rhe]

lemma np_round_zero (q : ℚ) : np_round q 0 = rhe q := by
  simp [np_round]

/-- Rounding an integer multiple of 0.05 to two decimals is the identity. -/
lemma np_round_two_mul_twentieth (m : ℤ) : np_round ((m : ℚ) * 0.05) 2 = (m : ℚ) * 0.05 := by
  have h : ((m : ℚ) * 0.05) * 10 ^ 2 = ((5 * m : ℤ) : ℚ) := by
    push_cast
    ring
  rw [np_round, h, rhe_intCast]
  push_cast
  ring

/-- The snapped value is the half-even rounding of x/0.05, times 0.05. -/
lemma snap_eq (x : ℚ) : snap x = (rhe (x / 0.05) : ℚ) * 0.05 := by
  rw [snap, np_round_zero, np_round_two_mul_twentieth]

/-- Claim C5: the grid snapping is idempotent. -/
theorem snap_idempotent (x : ℚ) : snap (snap x) = snap x := by
  rw [snap_eq x, snap_eq]
  have h : ((rhe (x / 0.05) : ℚ) * 0.05) / 0.05 = ((rhe (x / 0.05) : ℚ)) := by
    norm_num
  rw [h, rhe_intCast]

/-- Claim C4: on a coordinate exactly halfway between two grid cells (an
odd multiple of 0.025), snapping rounds the half to the even integer
multiple of the resolution: snap(k/40) lands on m*0.05 for an even m at
distance exactly 1/2 from k/2, as round-half-to-even prescribes. -/
theorem snap_half_to_even (k : ℤ) (hk : Odd k) :
    ∃ m : ℤ, Even m ∧ |(k : ℚ) / 2 - m| = 1 / 2 ∧
      snap ((k : ℚ) / 40) = (m : ℚ) * 0.05 := by
  obtain ⟨t, ht⟩ := hk
  have hdiv : ((k : ℚ) / 40) / 0.05 = (k : ℚ) / 2 := by
    rw [show (0.05 : ℚ) = 1 / 20 by norm_num]
    ring
  have hfloor : ⌊(k : ℚ) / 2⌋ = t := by
    rw [ht]
    push_cast
    rw [show (2 * (t : ℚ) + 1) / 2 = (t : ℚ) + 1 / 2 by ring]
    rw [Int.floor_eq_iff]
    constructor <;> norm_num
  have hfrac : (k : ℚ) / 2 - ⌊(k : ℚ) / 2⌋ = 1 / 2 := by
    rw [hfloor, ht]
    push_cast
    ring
  have hrhe : rhe ((k : ℚ) / 2) = if Even t then t else t + 1 := by
    rw [rhe, hfrac, hfloor]
    norm_num
  by_cases he : Even t
  · refine ⟨t, he, ?_, ?_⟩
    · rw [ht]; push_cast
      rw [show (2 * (t : ℚ) + 1) / 2 - (t : ℚ) = 1 / 2 by ring]
      norm_num
    · rw [snap_eq, hdiv, hrhe, if_pos he]
  · refine ⟨t + 1, ?_, ?_, ?_⟩
    · rcases Int.even_or_odd t with h | h
      · exact absurd h he
      · exact Odd.add_one h
    · rw [ht]; push_cast
      rw [show (2 * (t : ℚ) + 1) / 2 - ((t : ℚ) + 1) = -(1 / 2) by ring]
      norm_num
    · rw [snap_eq, hdiv, hrhe, if_neg he]

/-- Witness for C4 at the concrete halfway coordinate 0.025 = 1/40: it
snaps to 0 (the even multiple of 0.05), not to 0.05. -/
theorem snap_half_to_even_witness :
    Odd (1 : ℤ) ∧ ∃ m : ℤ, Even m ∧ |(1 : ℚ) / 2 - m| = 1 / 2 ∧
      snap ((1 : ℚ) / 40) = (m : ℚ) * 0.05 :=
  ⟨by decide, snap_half_to_even 1 (by decide)⟩

/-- Squared Euclidean distance between two projected (Easting, Northing)
points. -/
def sqd (q p : ℝ × ℝ) : ℝ := (q.1 - p.1) ^ 2 + (q.2 - p.2) ^ 2

lemma sqd_nonneg (q p : ℝ × ℝ) : 0 ≤ sqd q p :=
  add_nonneg (sq_nonneg _) (sq_nonneg _)

/-- Modelled from the spec: the nearest-neighbour index of rrt_value is the
external sklearn NearestNeighbors(n_neighbors=1) fitted on the projected
tide reference set; the spec's SpatialJoinEngine contract requires the
result of a brute-force linear scan in insertion order, keeping the
earlier point on ties. nnScan is that scan, carrying the best candidate
so far and replacing it only on strictly smaller squared distance. -/
noncomputable def nnScan (q : ℝ × ℝ) :
    ((ℝ × ℝ) × ℚ) → List ((ℝ × ℝ) × ℚ) → ((ℝ × ℝ) × ℚ)
  | best, [] => best
  | best, r :: rs => nnScan q (if sqd q r.1 < sqd q best.1 then r else best) rs

/-- Modelled from the spec: nearest(reference, query) returns the Euclidean
distance to the chosen reference point (sklearn kneighbors returns true
distances) together with that point's z value. On an empty reference set
rrt_value never reaches this function (claim C2); the `(0, 0)` branch is
junk needed only for totality. -/
noncomputable def nearest (ref : List ((ℝ × ℝ) × ℚ)) (q : ℝ × ℝ) : ℝ × ℚ :=
  match ref with
  | [] => (0, 0)
  | r :: rs =>
      let best := nnScan q r rs
      (Real.sqrt (sqd q best.1), best.2)

/-- The scan either keeps the initial candidate, which then beats every
list element weakly, or returns the first list element achieving the
minimum, strictly better than the initial candidate and than every
earlier element. -/
lemma nnScan_spec (q : ℝ × ℝ) (l : List ((ℝ × ℝ) × ℚ)) :
    ∀ b : (ℝ × ℝ) × ℚ,
      (nnScan q b l = b ∧ ∀ r ∈ l, sqd q b.1 ≤ sqd q r.1) ∨
      (∃ i, ∃ hi : i < l.length,
        nnScan q b l = l[i] ∧
        sqd q (nnScan q b l).1 < sqd q b.1 ∧
        (∀ r ∈ l, sqd q (nnScan q b l).1 ≤ sqd q r.1) ∧
        (∀ j, j < i → ∀ hj : j < l.length, sqd q (nnScan q b l).1 < sqd q l[j].1)) := by
  induction l with
  | nil =>
      intro b
      left
      exact ⟨rfl, by simp⟩
  | cons r rs ih =>
      intro b
      by_cases hlt : sqd q r.1 < sqd q b.1
      · have hbs : nnScan q b (r :: rs) = nnScan q r rs := by
          simp [nnScan, hlt]
        rcases ih r with ⟨heq, hle⟩ | ⟨i, hi, heq, hlt2, hle, hstrict⟩
        · right
          refine ⟨0, by simp, ?_, ?_, ?_, ?_⟩
          · rw [hbs, heq]; simp
          · rw [hbs, heq]; exact hlt
          · intro s hs
            rw [hbs, heq]
            rcases List.mem_cons.mp hs with h | h
            · rw [h]
            · exact hle s h
          · intro j hj hj2
            exact absurd hj (Nat.not_lt_zero j)
        · right
          refine ⟨i + 1, by simpa using Nat.succ_lt_succ hi, ?_, ?_, ?_, ?_⟩
          · rw [hbs, heq]; simp
          · rw [hbs]; exact lt_trans hlt2 hlt
          · intro s hs
            rw [hbs]
            rcases List.mem_cons.mp hs with h | h
            · rw [h]; exact le_of_lt hlt2
            · exact hle s h
          · intro j hj hj2
            rw [hbs]
            cases j with
            | zero => simpa using hlt2
            | succ j' =>
                have hj' : j' < i := by omega
                have hj2' : j' < rs.length := by simpa using Nat.lt_of_succ_lt_succ hj2
                simpa using hstrict j' hj' hj2'
      · have hbs : nnScan q b (r :: rs) = nnScan q b rs := by
          simp [nnScan, hlt]
        have hbr : sqd q b.1 ≤ sqd q r.1 := le_of_not_lt hlt
        rcases ih b with ⟨heq, hle⟩ | ⟨i, hi, heq, hlt2, hle, hstrict⟩
        · left
          refine ⟨by rw [hbs, heq], ?_⟩
          intro s hs
          rcases List.mem_cons.mp hs with h | h
          · rw [h]; exact hbr
          · exact hle s h
        · right
          refine ⟨i + 1, by simpa using Nat.succ_lt_succ hi, ?_, ?_, ?_, ?_⟩
          · rw [hbs, heq]; simp
          · rw [hbs]; exact hlt2
          · intro s hs
            rw [hbs]
            rcases List.mem_cons.mp hs with h | h
            · rw [h]; exact le_trans (le_of_lt hlt2) hbr
            · exact hle s h
          · intro j hj hj2
            rw [hbs]
            cases j with
            | zero => simpa using lt_of_lt_of_le hlt2 hbr
            | succ j' =>
                have hj' : j' < i := by omega
                have hj2' : j' < rs.length := by simpa using Nat.lt_of_succ_lt_succ hj2
                simpa using hstrict j' hj' hj2'

/-- Claim C3: on every non-empty reference set the nearest-neighbour join
returns the Euclidean distance (in projected space) to a closest reference
point together with that point's z value, and that point is the one at
the lowest index among the minimisers, exactly as a brute-force linear
scan in insertion order produces. -/
theorem nearest_first_argmin (ref : List ((ℝ × ℝ) × ℚ)) (q : ℝ × ℝ)
    (h : ref ≠ []) :
    ∃ i, ∃ hi : i < ref.length,
      nearest ref q = (Real.sqrt (sqd q ref[i].1), ref[i].2) ∧
      (∀ j, ∀ hj : j < ref.length,
        Real.sqrt (sqd q ref[i].1) ≤ Real.sqrt (sqd q ref[j].1)) ∧
      (∀ j, j < i → ∀ hj : j < ref.length,
        Real.sqrt (sqd q ref[i].1) < Real.sqrt (sqd q ref[j].1)) := by
  obtain ⟨r, rs, rfl⟩ : ∃ r rs, ref = r :: rs := by
    cases ref with
    | nil => exact absurd rfl h
    | cons r rs => exact ⟨r, rs, rfl⟩
  rcases nnScan_spec q rs r with ⟨heq, hle⟩ | ⟨i, hi, heq, hlt2, hle, hstrict⟩
  · refine ⟨0, by simp, ?_, ?_, ?_⟩
    · simp [nearest, heq]
    · intro j hj
      have hb : sqd q r.1 ≤ sqd q ((r :: rs)[j]).1 := by
        cases j with
        | zero => simp
        | succ j' =>
            have hj' : j' < rs.length := by simpa using Nat.lt_of_succ_lt_succ hj
            simpa using hle _ (List.getElem_mem hj')
      simpa using Real.sqrt_le_sqrt hb
    · intro j hj
      exact absurd hj (Nat.not_lt_zero j)
  · have hi1 : i + 1 < (r :: rs).length := by simpa using Nat.succ_lt_succ hi
    refine ⟨i + 1, hi1, ?_, ?_, ?_⟩
    · simp only [nearest, heq]
      simp
    · intro j hj
      have hb : sqd q ((r :: rs)[i + 1]).1 ≤ sqd q ((r :: rs)[j]).1 := by
        cases j with
        | zero =>
            simpa using le_of_lt (heq ▸ hlt2)
        | succ j' =>
            have hj' : j' < rs.length := by simpa using Nat.lt_of_succ_lt_succ hj
            have := hle _ (List.getElem_mem hj')
            simpa [heq] using this
      exact Real.sqrt_le_sqrt hb
    · intro j hj hj2
      have hb : sqd q ((r :: rs)[i + 1]).1 < sqd q ((r :: rs)[j]).1 := by
        cases j with
        | zero =>
            simpa using heq ▸ hlt2
        | succ j' =>
            have hj' : j' < i := by omega
            have hj2' : j' < rs.length := by simpa using Nat.lt_of_succ_lt_succ hj2
            have := hstrict j' hj' hj2'
            simpa [heq] using this
      exact Real.sqrt_lt_sqrt (sqd_nonneg _ _) hb

/-- Witness for C3: a two-point reference set at equal distance 1 from the
query; the scan returns the first of the two equidistant points. -/
theorem nearest_first_argmin_witness :
    (([((1, 0), 3), ((0, 1), 4)] : List ((ℝ × ℝ) × ℚ)) ≠ []) ∧
    (∃ i, ∃ hi : i < ([((1, 0), 3), ((0, 1), 4)] : List ((ℝ × ℝ) × ℚ)).length,
      nearest [((1, 0), 3), ((0, 1), 4)] (0, 0) =
        (Real.sqrt (sqd (0, 0) (([((1, 0), 3), ((0, 1), 4)] :
          List ((ℝ × ℝ) × ℚ))[i]).1),
         (([((1, 0), 3), ((0, 1), 4)] : List ((ℝ × ℝ) × ℚ))[i]).2) ∧
      (∀ j, ∀ hj : j < ([((1, 0), 3), ((0, 1), 4)] : List ((ℝ × ℝ) × ℚ)).length,
        Real.sqrt (sqd (0, 0) (([((1, 0), 3), ((0, 1), 4)] :
          List ((ℝ × ℝ) × ℚ))[i]).1) ≤
        Real.sqrt (sqd (0, 0) (([((1, 0), 3), ((0, 1), 4)] :
          List ((ℝ × ℝ) × ℚ))[j]).1)) ∧
      (∀ j, j < i → ∀ hj : j < ([((1, 0), 3), ((0, 1), 4)] :
          List ((ℝ × ℝ) × ℚ)).length,
        Real.sqrt (sqd (0, 0) (([((1, 0), 3), ((0, 1), 4)] :
          List ((ℝ × ℝ) × ℚ))[i]).1) <
        Real.sqrt (sqd (0, 0) (([((1, 0), 3), ((0, 1), 4)] :
          List ((ℝ × ℝ) × ℚ))[j]).1))) :=
  ⟨by simp, nearest_first_argmin _ _ (by simp)⟩

/-- A row of an (x, y, z) table: a grid-snapped longitude/latitude cell or
a tide-station longitude/latitude, with a scalar value z. The rows of the
river_df, rain_df and tide_df DataFrames consumed by rrt_value; the tables
themselves are produced by the external collaborators riverplt, rainplt,
tideplt and pygmt.select. -/
structure XYZ where
  x : ℚ
  y : ℚ
  z : ℚ
deriving DecidableEq

/-- The retrval helper inside rrt_value: the first row of the table whose
(x, y) equals the query's snapped cell; the IndexError on no match is
caught and turned into the NaN sentinel, embedded as none. -/
def retrval (infodf : List XYZ) (locx locy : ℚ) : Option ℚ :=
  ((infodf.filter fun r => r.x == locx && r.y == locy).head?).map XYZ.z

/-- Lines 324-326 of map.py: the tide stations' Easting/Northing columns,
computed by the same transform from their latitude (y) and longitude (x)
columns, paired with their z values. -/
noncomputable def tideProjOf (tide : List XYZ) : List ((ℝ × ℝ) × ℚ) :=
  tide.map fun r =>
    (get_easting_northing_from_gps_lat_long (r.y : ℝ) (r.x : ℝ) false, r.z)

/-- One output row of rrt_value: the returned DataFrame has exactly the
columns Longitude, Latitude, Easting, Northing, riv_val, rain_val,
coast_dist, tide_val (x and y are dropped); there is no error column.
riv_val and rain_val are Option because an absent raster cell yields the
NaN sentinel; the coastal-join columns are always present for the finite
query points that reach them (a batch with a non-finite point never
produces a DataFrame at all, see rrt_value). -/
structure QueryRecord where
  Longitude : ℚ
  Latitude : ℚ
  Easting : ℝ
  Northing : ℝ
  riv_val : Option ℚ
  rain_val : Option ℚ
  coast_dist : ℝ
  tide_val : ℚ

/-- The record rrt_value assembles for one finite query point
(long, lat): its Easting/Northing from the transform, its river and rain
values by exact-cell lookup at the snapped coordinates, and its coastal
distance and tide value from the nearest-neighbour join. It depends only
on this point and the fixed datasets. -/
noncomputable def recOf (river rain : List XYZ) (tideRef : List ((ℝ × ℝ) × ℚ))
    (p : ℚ × ℚ) : QueryRecord :=
  let long := p.1
  let lat := p.2
  let en := get_easting_northing_from_gps_lat_long (lat : ℝ) (long : ℝ) false
  let nn := nearest tideRef en
  { Longitude := long, Latitude := lat, Easting := en.1, Northing := en.2,
    riv_val := retrval river (snap long) (snap lat),
    rain_val := retrval rain (snap long) (snap lat),
    coast_dist := nn.1, tide_val := nn.2 }

/-- The error taxonomy of the batch, both raised by the external sklearn
index embedded in rrt_value: fitting on an empty reference set raises
(modelled from the spec as the named configuration error
EmptyReferenceSet), and kneighbors validates its query matrix and raises
on any non-finite entry, aborting the whole batch. -/
inductive RrtError where
  | emptyReferenceSet
  | nonFiniteInput
deriving DecidableEq

/-- A query point with both coordinates finite, extracted from the
possibly-NaN input pair; none when either coordinate is non-finite. -/
def finiteQuery (p : Option ℚ × Option ℚ) : Option (ℚ × ℚ) :=
  match p with
  | (some long, some lat) => some (long, lat)
  | _ => none

/-- The finite coordinates of a whole query batch, in order; none as soon
as any point has a non-finite coordinate, mirroring the all-or-nothing
input validation that kneighbors applies to the stacked query matrix. -/
def finiteQueries : List (Option ℚ × Option ℚ) → Option (List (ℚ × ℚ))
  | [] => some []
  | p :: ps =>
      match finiteQuery p with
      | none => none
      | some q =>
          match finiteQueries ps with
          | none => none
          | some qs => some (q :: qs)

/-- Embedding of a finite query point into the possibly-NaN input type. -/
def someQuery (p : ℚ × ℚ) : Option ℚ × Option ℚ := (some p.1, some p.2)

/-- The rrt_value orchestrator of map.py on a batch of (long, lat) query
points, given the river and rain rasters and the tide station rows it
receives from the external plotting collaborators. It projects the tide
rows and aborts with the configuration error if the reference set is
empty (the sklearn fit on zero samples, line 329, which runs before any
record is returned); if any query coordinate is non-finite the
kneighbors call at line 340 rejects its input and the whole batch aborts
with that single error; otherwise it assembles one record per query
point in input order. Both aborts are hoisted before record assembly:
this is observationally equivalent to the source's raise-at-fit and
raise-at-kneighbors order because every per-point computation that the
source performs before those raises (transform, snapping, raster
lookups) is pure and its results are discarded when the batch aborts.
The from_live flag only changes which external data are fetched and is
not modelled. -/
noncomputable def rrt_value (pts : List (Option ℚ × Option ℚ))
    (river rain tide : List XYZ) : Except RrtError (List QueryRecord) :=
  if tide = [] then Except.error RrtError.emptyReferenceSet
  else
    match finiteQueries pts with
    | some fpts => Except.ok (fpts.map (recOf river rain (tideProjOf tide)))
    | none => Except.error RrtError.nonFiniteInput

lemma finiteQueries_someQuery (fpts : List (ℚ × ℚ)) :
    finiteQueries (fpts.map someQuery) = some fpts := by
  induction fpts with
  | nil => rfl
  | cons p ps ih =>
      simp [finiteQueries, someQuery, finiteQuery, ih]

lemma finiteQueries_eq_none (pts : List (Option ℚ × Option ℚ)) (p : Option ℚ × Option ℚ)
    (hp : p ∈ pts) (hnone : finiteQuery p = none) :
    finiteQueries pts = none := by
  induction pts with
  | nil => exact absurd hp (List.not_mem_nil p)
  | cons q qs ih =>
      rcases List.mem_cons.mp hp with h | h
      · subst h
        simp [finiteQueries, hnone]
      · cases hq : finiteQuery q with
        | none => simp [finiteQueries, hq]
        | some b => simp [finiteQueries, hq, ih h]

lemma rrt_value_ok (fpts : List (ℚ × ℚ)) (river rain tide : List XYZ)
    (h : tide ≠ []) :
    rrt_value (fpts.map someQuery) river rain tide =
      Except.ok (fpts.map (recOf river rain (tideProjOf tide))) := by
  simp [rrt_value, h, finiteQueries_someQuery]

lemma retrval_absent (infodf : List XYZ) (locx locy : ℚ)
    (h : ∀ r ∈ infodf, ¬(r.x = locx ∧ r.y = locy)) :
    retrval infodf locx locy = none := by
  have hf : infodf.filter (fun r => r.x == locx && r.y == locy) = [] := by
    rw [List.filter_eq_nil_iff]
    intro r hr
    have := h r hr
    simp only [Bool.and_eq_true, beq_iff_eq]
    tauto
  simp [retrval, hf]

/-- Claim C2: the batch fails with the named configuration error exactly
when the tide reference set is empty; a non-empty reference set never
produces it, and on an empty reference set the named configuration error
is the one the whole batch aborts with (the sklearn fit on zero samples
at line 329 raises before the kneighbors input validation at line 340 is
ever reached). -/
theorem rrt_value_empty_reference (pts : List (Option ℚ × Option ℚ))
    (river rain tide : List XYZ) :
    (rrt_value pts river rain tide = Except.error RrtError.emptyReferenceSet ↔
      tide = []) ∧
    (tide = [] → ∀ e, rrt_value pts river rain tide = Except.error e →
      e = RrtError.emptyReferenceSet) := by
  have hempty : tide = [] →
      rrt_value pts river rain tide = Except.error RrtError.emptyReferenceSet := by
    intro h
    simp [rrt_value, h]
  have hnever : tide ≠ [] →
      rrt_value pts river rain tide ≠ Except.error RrtError.emptyReferenceSet := by
    intro h
    cases hm : finiteQueries pts with
    | some fpts => simp [rrt_value, h, hm]
    | none => simp [rrt_value, h, hm]
  refine ⟨⟨?_, hempty⟩, ?_⟩
  · intro hh
    by_contra hne
    exact hnever hne hh
  · intro h e he
    rw [hempty h] at he
    injection he with h2
    exact h2.symm

/-- Witness for C2: a concrete empty tide set aborts the whole batch with
the named error (no records are produced for the two query points). -/
theorem rrt_value_empty_reference_witness :
    rrt_value [(some 0, some 50), (some 1, some 51)] [] [] [] =
      Except.error RrtError.emptyReferenceSet :=
  (rrt_value_empty_reference [(some 0, some 50), (some 1, some 51)] [] [] []).1.mpr rfl

/-- Claim C7: for every list of query points, given any rasters and a
non-empty tide reference set, the orchestrator returns exactly one record
per input point, in input order, with the Longitude, Latitude, Easting,
Northing, river, rain, coastal-distance and tide fields each computed
from that point alone. -/
theorem rrt_value_one_record_per_point (fpts : List (ℚ × ℚ))
    (river rain tide : List XYZ) (h : tide ≠ []) :
    ∃ recs, rrt_value (fpts.map someQuery) river rain tide = Except.ok recs ∧
      recs.length = fpts.length ∧
      ∀ i, ∀ hi : i < fpts.length, ∀ hi2 : i < recs.length,
        recs[i].Longitude = fpts[i].1 ∧
        recs[i].Latitude = fpts[i].2 ∧
        recs[i].Easting = (get_easting_northing_from_gps_lat_long
          ((fpts[i].2 : ℚ) : ℝ) ((fpts[i].1 : ℚ) : ℝ) false).1 ∧
        recs[i].Northing = (get_easting_northing_from_gps_lat_long
          ((fpts[i].2 : ℚ) : ℝ) ((fpts[i].1 : ℚ) : ℝ) false).2 ∧
        recs[i].riv_val = retrval river (snap fpts[i].1) (snap fpts[i].2) ∧
        recs[i].rain_val = retrval rain (snap fpts[i].1) (snap fpts[i].2) ∧
        recs[i].coast_dist = (nearest (tideProjOf tide)
          (get_easting_northing_from_gps_lat_long
            ((fpts[i].2 : ℚ) : ℝ) ((fpts[i].1 : ℚ) : ℝ) false)).1 ∧
        recs[i].tide_val = (nearest (tideProjOf tide)
          (get_easting_northing_from_gps_lat_long
            ((fpts[i].2 : ℚ) : ℝ) ((fpts[i].1 : ℚ) : ℝ) false)).2 := by
  refine ⟨_, rrt_value_ok fpts river rain tide h, by simp, ?_⟩
  intro i hi hi2
  simp only [List.getElem_map]
  exact ⟨rfl, rfl, rfl, rfl, rfl, rfl, rfl, rfl⟩

/-- Witness for C7 at a concrete one-point batch with a one-station tide
set. -/
theorem rrt_value_one_record_per_point_witness :
    (([⟨1, 50, 2⟩] : List XYZ) ≠ []) ∧
    (∃ recs, rrt_value (([((0 : ℚ), (50 : ℚ))]).map someQuery) [] [] [⟨1, 50, 2⟩] =
        Except.ok recs ∧
      recs.length = ([((0 : ℚ), (50 : ℚ))] : List (ℚ × ℚ)).length ∧
      ∀ i, ∀ hi : i < ([((0 : ℚ), (50 : ℚ))] : List (ℚ × ℚ)).length,
        ∀ hi2 : i < recs.length,
        recs[i].Longitude = ([((0 : ℚ), (50 : ℚ))] : List (ℚ × ℚ))[i].1 ∧
        recs[i].Latitude = ([((0 : ℚ), (50 : ℚ))] : List (ℚ × ℚ))[i].2 ∧
        recs[i].Easting = (get_easting_northing_from_gps_lat_long
          ((([((0 : ℚ), (50 : ℚ))] : List (ℚ × ℚ))[i].2 : ℚ) : ℝ)
          ((([((0 : ℚ), (50 : ℚ))] : List (ℚ × ℚ))[i].1 : ℚ) : ℝ) false).1 ∧
        recs[i].Northing = (get_easting_northing_from_gps_lat_long
          ((([((0 : ℚ), (50 : ℚ))] : List (ℚ × ℚ))[i].2 : ℚ) : ℝ)
          ((([((0 : ℚ), (50 : ℚ))] : List (ℚ × ℚ))[i].1 : ℚ) : ℝ) false).2 ∧
        recs[i].riv_val = retrval []
          (snap ([((0 : ℚ), (50 : ℚ))] : List (ℚ × ℚ))[i].1)
          (snap ([((0 : ℚ), (50 : ℚ))] : List (ℚ × ℚ))[i].2) ∧
        recs[i].rain_val = retrval []
          (snap ([((0 : ℚ), (50 : ℚ))] : List (ℚ × ℚ))[i].1)
          (snap ([((0 : ℚ), (50 : ℚ))] : List (ℚ × ℚ))[i].2) ∧
        recs[i].coast_dist = (nearest (tideProjOf [⟨1, 50, 2⟩])
          (get_easting_northing_from_gps_lat_long
            ((([((0 : ℚ), (50 : ℚ))] : List (ℚ × ℚ))[i].2 : ℚ) : ℝ)
            ((([((0 : ℚ), (50 : ℚ))] : List (ℚ × ℚ))[i].1 : ℚ) : ℝ) false)).1 ∧
        recs[i].tide_val = (nearest (tideProjOf [⟨1, 50, 2⟩])
          (get_easting_northing_from_gps_lat_long
            ((([((0 : ℚ), (50 : ℚ))] : List (ℚ × ℚ))[i].2 : ℚ) : ℝ)
            ((([((0 : ℚ), (50 : ℚ))] : List (ℚ × ℚ))[i].1 : ℚ) : ℝ) false)).2) :=
  ⟨by simp,
    rrt_value_one_record_per_point [((0 : ℚ), (50 : ℚ))] [] [] [⟨1, 50, 2⟩] (by simp)⟩

/-- Claim C6: a query point whose snapped grid cell is absent from the
river raster gets the missing-value sentinel as its river value, not zero
and not an exception, while its coastal distance and tide value are still
populated from the non-empty reference set; and every record of the batch
is computed from its own point alone, so a missing raster value for one
point does not affect the others. -/
theorem rrt_value_missing_raster (fpts : List (ℚ × ℚ))
    (river rain tide : List XYZ) (h : tide ≠ []) (i : ℕ) (hi : i < fpts.length)
    (lo la : ℚ) (hp : fpts[i] = (lo, la))
    (habs : ∀ r ∈ river, ¬(r.x = snap lo ∧ r.y = snap la)) :
    ∃ recs, rrt_value (fpts.map someQuery) river rain tide = Except.ok recs ∧
      recs.length = fpts.length ∧
      ∀ hi2 : i < recs.length,
        recs[i].riv_val = none ∧
        recs[i].coast_dist = (nearest (tideProjOf tide)
          (get_easting_northing_from_gps_lat_long (la : ℝ) (lo : ℝ) false)).1 ∧
        recs[i].tide_val = (nearest (tideProjOf tide)
          (get_easting_northing_from_gps_lat_long (la : ℝ) (lo : ℝ) false)).2 ∧
        (∀ j, ∀ hj : j < fpts.length, ∀ hj2 : j < recs.length,
          recs[j] = recOf river rain (tideProjOf tide) fpts[j]) := by
  refine ⟨_, rrt_value_ok fpts river rain tide h, by simp, ?_⟩
  intro hi2
  refine ⟨?_, ?_, ?_, ?_⟩
  · simp only [List.getElem_map, hp]
    exact retrval_absent river (snap lo) (snap la) habs
  · simp only [List.getElem_map, hp]
    rfl
  · simp only [List.getElem_map, hp]
    rfl
  · intro j hj hj2
    simp only [List.getElem_map]

lemma snap_zero : snap (0 : ℚ) = 0 := by
  rw [snap_eq, show (0 : ℚ) / 0.05 = ((0 : ℤ) : ℚ) by norm_num, rhe_intCast]
  norm_num

/-- Witness for C6: the snapped cell (0, 0) is absent from a one-cell
river raster at (0.1, 0.1), so the river value is the sentinel while the
coastal join fields are populated. -/
theorem rrt_value_missing_raster_witness :
    (([⟨1, 50, 2⟩] : List XYZ) ≠ []) ∧
    (([((0 : ℚ), (0 : ℚ))] : List (ℚ × ℚ))[0] = ((0 : ℚ), (0 : ℚ))) ∧
    (∀ r ∈ ([⟨1/10, 1/10, 5⟩] : List XYZ), ¬(r.x = snap 0 ∧ r.y = snap 0)) ∧
    (∃ recs, rrt_value (([((0 : ℚ), (0 : ℚ))]).map someQuery)
        [⟨1/10, 1/10, 5⟩] [] [⟨1, 50, 2⟩] = Except.ok recs ∧
      recs.length = ([((0 : ℚ), (0 : ℚ))] : List (ℚ × ℚ)).length ∧
      ∀ hi2 : 0 < recs.length,
        recs[0].riv_val = none ∧
        recs[0].coast_dist = (nearest (tideProjOf [⟨1, 50, 2⟩])
          (get_easting_northing_from_gps_lat_long ((0 : ℚ) : ℝ) ((0 : ℚ) : ℝ) false)).1 ∧
        recs[0].tide_val = (nearest (tideProjOf [⟨1, 50, 2⟩])
          (get_easting_northing_from_gps_lat_long ((0 : ℚ) : ℝ) ((0 : ℚ) : ℝ) false)).2 ∧
        (∀ j, ∀ hj : j < ([((0 : ℚ), (0 : ℚ))] : List (ℚ × ℚ)).length,
          ∀ hj2 : j < recs.length,
          recs[j] = recOf [⟨1/10, 1/10, 5⟩] [] (tideProjOf [⟨1, 50, 2⟩])
            (([((0 : ℚ), (0 : ℚ))] : List (ℚ × ℚ))[j]))) :=
  ⟨by simp, rfl,
    by
      intro r hr
      simp only [List.mem_singleton] at hr
      subst hr
      simp [snap_zero],
    rrt_value_missing_raster [((0 : ℚ), (0 : ℚ))] [⟨1/10, 1/10, 5⟩] [] [⟨1, 50, 2⟩]
      (by simp) 0 (by simp) 0 0 rfl
      (by
        intro r hr
        simp only [List.mem_singleton] at hr
        subst hr
        simp [snap_zero])⟩

/-- Counterexample for C8: a batch containing a point with a non-finite
(NaN) longitude gets no per-point InvalidGeometry record; instead the
whole batch aborts — the second, well-formed point gets no record
either — with the single error raised by the nearest-neighbour query's
input validation (map.py line 340). -/
theorem rrt_value_nan_aborts_batch :
    rrt_value [(none, some 51), (some 0, some 50)] [] [] [⟨-3, 51, 21/10⟩] =
      Except.error RrtError.nonFiniteInput := by
  rfl

/-- Claim C8 as amended: a non-finite input coordinate triggers no
per-point InvalidGeometry error and no per-point error record: map.py
performs no input validation of its own and the NaN flows through the
pure per-point arithmetic, but the batch then aborts as a whole with the
single validation error of the external nearest-neighbour query at
map.py line 340, so no record is produced for any point of the batch. -/
theorem rrt_value_nonfinite_aborts (pts : List (Option ℚ × Option ℚ))
    (river rain tide : List XYZ) (h : tide ≠ []) (i : ℕ) (hi : i < pts.length)
    (hnf : pts[i].1 = none ∨ pts[i].2 = none) :
    rrt_value pts river rain tide = Except.error RrtError.nonFiniteInput := by
  have hfq : finiteQuery pts[i] = none := by
    rcases hP : pts[i] with ⟨p1, p2⟩
    rw [hP] at hnf
    rcases hnf with h1 | h1
    · have h2 : p1 = none := h1
      subst h2
      cases p2 <;> rfl
    · have h2 : p2 = none := h1
      subst h2
      cases p1 <;> rfl
  have hmap := finiteQueries_eq_none pts pts[i] (List.getElem_mem hi) hfq
  simp [rrt_value, h, hmap]

/-- Witness for the amended C8 at a concrete one-point batch whose point
has a NaN latitude. -/
theorem rrt_value_nonfinite_aborts_witness :
    (([⟨0, 50, 1⟩] : List XYZ) ≠ []) ∧
    (([((some 1 : Option ℚ), (none : Option ℚ))])[0].1 = none ∨
      ([((some 1 : Option ℚ), (none : Option ℚ))])[0].2 = none) ∧
    rrt_value [(some 1, none)] [] [] [⟨0, 50, 1⟩] =
      Except.error RrtError.nonFiniteInput :=
  ⟨by simp, Or.inr rfl,
    rrt_value_nonfinite_aborts [(some 1, none)] [] [] [⟨0, 50, 1⟩]
      (by simp) 0 (by simp) (Or.inr rfl)⟩

lemma mul_mem_pp {m mL mU e eL eU : ℝ} (hmL : mL ≤ m) (hmU : m ≤ mU)
    (heL : eL ≤ e) (heU : e ≤ eU) (hm0 : 0 ≤ mL) (he0 : 0 ≤ eL) :
    mL * eL ≤ m * e ∧ m * e ≤ mU * eU :=
  ⟨by nlinarith, by nlinarith⟩

lemma mul_mem_pn {m mL mU e eL eU : ℝ} (hmL : mL ≤ m) (hmU : m ≤ mU)
    (heL : eL ≤ e) (heU : e ≤ eU) (hm0 : 0 ≤ mL) (he0 : eU ≤ 0) :
    mU * eL ≤ m * e ∧ m * e ≤ mL * eU :=
  ⟨by nlinarith, by nlinarith⟩

lemma mul_mem_np {m mL mU e eL eU : ℝ} (hmL : mL ≤ m) (hmU : m ≤ mU)
    (heL : eL ≤ e) (heU : e ≤ eU) (hm0 : mU ≤ 0) (he0 : 0 ≤ eL) :
    mL * eU ≤ m * e ∧ m * e ≤ mU * eL :=
  ⟨by nlinarith, by nlinarith⟩

/-- Interval doubling step for sine and cosine on angles with nonnegative
bounds, via the double-angle identities. -/
lemma sin_cos_double (x s1 s2 c1 c2 : ℝ)
    (hs1 : s1 ≤ Real.sin x) (hs2 : Real.sin x ≤ s2)
    (hc1 : c1 ≤ Real.cos x) (hc2 : Real.cos x ≤ c2)
    (hs1n : 0 ≤ s1) (hc1n : 0 ≤ c1) :
    2 * s1 * c1 ≤ Real.sin (2 * x) ∧ Real.sin (2 * x) ≤ 2 * s2 * c2 ∧
    2 * c1 ^ 2 - 1 ≤ Real.cos (2 * x) ∧ Real.cos (2 * x) ≤ 2 * c2 ^ 2 - 1 := by
  rw [Real.sin_two_mul, Real.cos_two_mul]
  refine ⟨by nlinarith, by nlinarith, by nlinarith, by nlinarith⟩

lemma rpow_neg_half_eq {u : ℝ} (hu : 0 < u) :
    u ^ (-0.5 : ℝ) = (Real.sqrt u)⁻¹ := by
  have h1 : u ^ ((1 : ℝ) / 2) = Real.sqrt u := (Real.sqrt_eq_rpow u).symm
  rw [show (-0.5 : ℝ) = -((1 : ℝ) / 2) by norm_num, Real.rpow_neg hu.le, h1]

lemma rpow_neg_threehalf_eq {u : ℝ} (hu : 0 < u) :
    u ^ (-1.5 : ℝ) = (Real.sqrt u ^ 3)⁻¹ := by
  have h1 : u ^ ((3 : ℝ) / 2) = Real.sqrt u ^ 3 := by
    rw [show (3 : ℝ) / 2 = 1 / 2 * 3 by ring, Real.rpow_mul hu.le, ← Real.sqrt_eq_rpow,
      show (3 : ℝ) = ((3 : ℕ) : ℝ) by norm_num, Real.rpow_natCast]
  rw [show (-1.5 : ℝ) = -((3 : ℝ) / 2) by norm_num, Real.rpow_neg hu.le, h1]

/-- Two-sided bounds on sine and cosine of the transform's latitude angle,
obtained from the 20-digit pi bounds, the cubic Taylor bounds at the
1/32nd angle, and five interval doubling steps. -/
lemma sin_cos_phi_bounds :
    (0.82410134656314 ≤ Real.sin (deg2rad 55.5) ∧
      Real.sin (deg2rad 55.5) ≤ 0.8241300012753) ∧
    (0.56633765174199 ≤ Real.cos (deg2rad 55.5) ∧
      Real.cos (deg2rad 55.5) ≤ 0.56641385865986) := by
  have hpiL := Real.pi_gt_d20
  have hpiU := Real.pi_lt_d20
  have hphiL : (0.96865773485685 : ℝ) ≤ deg2rad 55.5 := by
    rw [deg2rad]; nlinarith
  have hphiU : deg2rad 55.5 ≤ 0.96865773485686 := by
    rw [deg2rad]; nlinarith
  have hx0L : (0.030270554214276 : ℝ) ≤ deg2rad 55.5 / 32 := by linarith
  have hx0U : deg2rad 55.5 / 32 ≤ 0.030270554214277 := by linarith
  have hx0nn : (0 : ℝ) ≤ deg2rad 55.5 / 32 := by linarith
  have habs : |deg2rad 55.5 / 32| ≤ 1 := by
    rw [abs_of_nonneg hx0nn]; linarith
  have hsb := abs_le.mp ((abs_of_nonneg hx0nn) ▸ Real.sin_bound habs)
  have hcb := abs_le.mp ((abs_of_nonneg hx0nn) ▸ Real.cos_bound habs)
  have h2U : (deg2rad 55.5 / 32) ^ 2 ≤ 0.00091630645243949 :=
    le_trans (pow_le_pow_left₀ hx0nn hx0U 2) (by norm_num)
  have h2L : (0.00091630645243942 : ℝ) ≤ (deg2rad 55.5 / 32) ^ 2 :=
    le_trans (by norm_num) (pow_le_pow_left₀ (by norm_num) hx0L 2)
  have h3U : (deg2rad 55.5 / 32) ^ 3 ≤ 0.000027737104145462 :=
    le_trans (pow_le_pow_left₀ hx0nn hx0U 3) (by norm_num)
  have h3L : (0.000027737104145458 : ℝ) ≤ (deg2rad 55.5 / 32) ^ 3 :=
    le_trans (by norm_num) (pow_le_pow_left₀ (by norm_num) hx0L 3)
  have h4U : (deg2rad 55.5 / 32) ^ 4 ≤ 0.00000083961751478224 :=
    le_trans (pow_le_pow_left₀ hx0nn hx0U 4) (by norm_num)
  have hs0L : (0.030265887633506 : ℝ) ≤ Real.sin (deg2rad 55.5 / 32) := by
    have := hsb.1
    linarith
  have hs0U : Real.sin (deg2rad 55.5 / 32) ≤ 0.030265975093665 := by
    have := hsb.2
    linarith
  have hc0L : (0.9995418030437 : ℝ) ≤ Real.cos (deg2rad 55.5 / 32) := by
    have := hcb.1
    linarith
  have hc0U : Real.cos (deg2rad 55.5 / 32) ≤ 0.99954189050386 := by
    have := hcb.2
    linarith
  have hd1 := sin_cos_double (deg2rad 55.5 / 32) 0.030265887633506 0.030265975093665
    0.9995418030437 0.99954189050386 hs0L hs0U hc0L hc0U (by norm_num) (by norm_num)
  rw [show 2 * (deg2rad 55.5 / 32) = deg2rad 55.5 / 16 by ring] at hd1
  obtain ⟨h1a, h1b, h1c, h1d⟩ := hd1
  have hs1L : (0.060504039791825 : ℝ) ≤ Real.sin (deg2rad 55.5 / 16) :=
    le_trans (by norm_num) h1a
  have hs1U : Real.sin (deg2rad 55.5 / 16) ≤ 0.06050421992613 :=
    le_trans h1b (by norm_num)
  have hc1L : (0.9981676320637 : ℝ) ≤ Real.cos (deg2rad 55.5 / 16) :=
    le_trans (by norm_num) h1c
  have hc1U : Real.cos (deg2rad 55.5 / 16) ≤ 0.99816798174407 :=
    le_trans h1d (by norm_num)
  have hd2 := sin_cos_double (deg2rad 55.5 / 16) 0.060504039791825 0.06050421992613
    0.9981676320637 0.99816798174407 hs1L hs1U hc1L hc1U (by norm_num) (by norm_num)
  rw [show 2 * (deg2rad 55.5 / 16) = deg2rad 55.5 / 8 by ring] at hd2
  obtain ⟨h2a, h2b, h2c, h2d⟩ := hd2
  have hs2L : (0.12078634825858 : ℝ) ≤ Real.sin (deg2rad 55.5 / 8) :=
    le_trans (by norm_num) h2a
  have hs2U : Real.sin (deg2rad 55.5 / 8) ≤ 0.12078675018133 :=
    le_trans h2b (by norm_num)
  have hc2L : (0.9926772433993 : ℝ) ≤ Real.cos (deg2rad 55.5 / 8) :=
    le_trans (by norm_num) h2c
  have hc2U : Real.cos (deg2rad 55.5 / 8) ≤ 0.99267863955807 :=
    le_trans h2d (by norm_num)
  have hd3 := sin_cos_double (deg2rad 55.5 / 8) 0.12078634825858 0.12078675018133
    0.9926772433993 0.99267863955807 hs2L hs2U hc2L hc2U (by norm_num) (by norm_num)
  rw [show 2 * (deg2rad 55.5 / 8) = deg2rad 55.5 / 4 by ring] at hd3
  obtain ⟨h3a, h3b, h3c, h3d⟩ := hd3
  have hs3L : (0.23980371845919 : ℝ) ≤ Real.sin (deg2rad 55.5 / 4) :=
    le_trans (by norm_num) h3a
  have hs3U : Real.sin (deg2rad 55.5 / 4) ≤ 0.23980485369329 :=
    le_trans h3b (by norm_num)
  have hc3L : (0.97081621912566 : ℝ) ≤ Real.cos (deg2rad 55.5 / 4) :=
    le_trans (by norm_num) h3c
  have hc3U : Real.cos (deg2rad 55.5 / 4) ≤ 0.97082176286973 :=
    le_trans h3d (by norm_num)
  have hd4 := sin_cos_double (deg2rad 55.5 / 4) 0.23980371845919 0.23980485369329
    0.97081621912566 0.97082176286973 hs3L hs3U hc3L hc3U (by norm_num) (by norm_num)
  rw [show 2 * (deg2rad 55.5 / 4) = deg2rad 55.5 / 2 by ring] at hd4
  obtain ⟨h4a, h4b, h4c, h4d⟩ := hd4
  have hs4L : (0.46561067857365 : ℝ) ≤ Real.sin (deg2rad 55.5 / 2) :=
    le_trans (by norm_num) h4a
  have hs4U : Real.sin (deg2rad 55.5 / 2) ≤ 0.46561554161448 :=
    le_trans h4b (by norm_num)
  have hc4L : (0.88496826263488 : ℝ) ≤ Real.cos (deg2rad 55.5 / 2) :=
    le_trans (by norm_num) h4c
  have hc4U : Real.cos (deg2rad 55.5 / 2) ≤ 0.88498979052299 :=
    le_trans h4d (by norm_num)
  have hd5 := sin_cos_double (deg2rad 55.5 / 2) 0.46561067857365 0.46561554161448
    0.88496826263488 0.88498979052299 hs4L hs4U hc4L hc4U (by norm_num) (by norm_num)
  rw [show 2 * (deg2rad 55.5 / 2) = deg2rad 55.5 by ring] at hd5
  obtain ⟨h5a, h5b, h5c, h5d⟩ := hd5
  exact ⟨⟨le_trans (by norm_num) h5a, le_trans h5b (by norm_num)⟩,
    ⟨le_trans (by norm_num) h5c, le_trans h5d (by norm_num)⟩⟩

set_option maxHeartbeats 2000000 in
/-- Rigorous two-sided enclosure of the easting that map.py computes at
the docstring's own example input (lat 55.5 deg, long -1.54 deg): it lies
in (429052, 429056), about 101 metres away from the documented 429157. -/
lemma easting_at_docstring_point_bounds :
    429052 < (get_easting_northing_from_gps_lat_long 55.5 (-1.54) false).1 ∧
    (get_easting_northing_from_gps_lat_long 55.5 (-1.54) false).1 < 429056 := by
  obtain ⟨⟨hsL, hsU⟩, hcL, hcU⟩ := sin_cos_phi_bounds
  have hpiL := Real.pi_gt_d20
  have hpiU := Real.pi_lt_d20
  have hcpos : (0 : ℝ) < Real.cos (deg2rad 55.5) := by linarith only [hcL]
  have htan : Real.tan (deg2rad 55.5) =
      Real.sin (deg2rad 55.5) / Real.cos (deg2rad 55.5) := Real.tan_eq_sin_div_cos _
  have htL : (1.4549455913966 : ℝ) ≤ Real.tan (deg2rad 55.5) := by
    rw [htan, le_div_iff₀ hcpos]; linarith only [hcU, hsL]
  have htU : Real.tan (deg2rad 55.5) ≤ 1.4551919667364 := by
    rw [htan, div_le_iff₀ hcpos]; linarith only [hcL, hsU]
  have htnn : (0 : ℝ) ≤ Real.tan (deg2rad 55.5) := le_trans (by norm_num) htL
  have ht2L : (2.1168666739244 : ℝ) ≤ Real.tan (deg2rad 55.5) ^ 2 :=
    le_trans (by norm_num) (pow_le_pow_left₀ (by norm_num) htL 2)
  have ht2U : Real.tan (deg2rad 55.5) ^ 2 ≤ 2.1175836600542 :=
    le_trans (pow_le_pow_left₀ htnn htU 2) (by norm_num)
  have ht4L : (4.4811245151717 : ℝ) ≤ Real.tan (deg2rad 55.5) ^ 4 :=
    le_trans (by norm_num) (pow_le_pow_left₀ (by norm_num) htL 4)
  have ht4U : Real.tan (deg2rad 55.5) ^ 4 ≤ 4.4841605573284 :=
    le_trans (pow_le_pow_left₀ htnn htU 4) (by norm_num)
  have hsnn : (0 : ℝ) ≤ Real.sin (deg2rad 55.5) := le_trans (by norm_num) hsL
  have hs2L : (0.67914302940718 : ℝ) ≤ Real.sin (deg2rad 55.5) ^ 2 :=
    le_trans (by norm_num) (pow_le_pow_left₀ (by norm_num) hsL 2)
  have hs2U : Real.sin (deg2rad 55.5) ^ 2 ≤ 0.67919025900203 :=
    le_trans (pow_le_pow_left₀ hsnn hsU 2) (by norm_num)
  have hdlL : (0.00802851455917391 : ℝ) ≤ deg2rad (-1.54) - deg2rad (-2) := by
    rw [deg2rad, deg2rad]; linarith only [hpiL]
  have hdlU : deg2rad (-1.54) - deg2rad (-2) ≤ 0.00802851455917392 := by
    rw [deg2rad, deg2rad]; linarith only [hpiU]
  unfold get_easting_northing_from_gps_lat_long osgb36 mkDatum mkEllipsoid
  simp only [if_true]
  set S := Real.sin (deg2rad 55.5) with hSdef
  set C := Real.cos (deg2rad 55.5) with hCdef
  set T := Real.tan (deg2rad 55.5) with hTdef
  set DL := deg2rad (-1.54) - deg2rad (-2) with hDLdef
  set U := 1 - (6377563.396 ^ 2 - 6356256.910 ^ 2) / 6377563.396 ^ 2 * S ^ 2 with hUdef
  have hUL : (0.99546943437163 : ℝ) ≤ U := by
    rw [hUdef]; linarith only [hs2U]
  have hUU : U ≤ 0.99546974941853 := by
    rw [hUdef]; linarith only [hs2L]
  have hUpos : (0 : ℝ) < U := lt_of_lt_of_le (by norm_num) hUL
  rw [rpow_neg_half_eq hUpos, rpow_neg_threehalf_eq hUpos]
  set W := Real.sqrt U with hWdef
  have hWnn : (0 : ℝ) ≤ W := by rw [hWdef]; exact Real.sqrt_nonneg U
  have hWL : (0.99773214560403 : ℝ) ≤ W := by
    rw [hWdef]
    have h1 : ((0.99773214560403 : ℝ)) ^ 2 ≤ U := by linarith only [hUL]
    calc (0.99773214560403 : ℝ) = Real.sqrt ((0.99773214560403 : ℝ) ^ 2) :=
          (Real.sqrt_sq (by norm_num)).symm
      _ ≤ Real.sqrt U := Real.sqrt_le_sqrt h1
  have hWU : W ≤ 0.99773230348553 := by
    rw [hWdef]
    have h1 : U ≤ ((0.99773230348553 : ℝ)) ^ 2 := by linarith only [hUU]
    calc Real.sqrt U ≤ Real.sqrt ((0.99773230348553 : ℝ) ^ 2) := Real.sqrt_le_sqrt h1
      _ = 0.99773230348553 := Real.sqrt_sq (by norm_num)
  have hWpos : (0 : ℝ) < W := lt_of_lt_of_le (by norm_num) hWL
  set VV := 6377563.396 * 0.9996012717 * W⁻¹ with hVVdef
  have hVVL : (6389509.9504327 : ℝ) ≤ VV := by
    rw [hVVdef, ← div_eq_mul_inv, le_div_iff₀ hWpos]; linarith only [hWU]
  have hVVU : VV ≤ 6389510.9615112 := by
    rw [hVVdef, ← div_eq_mul_inv, div_le_iff₀ hWpos]; linarith only [hWL]
  have hW3L : (0.99321185463882 : ℝ) ≤ W ^ 3 :=
    le_trans (by norm_num) (pow_le_pow_left₀ (by norm_num) hWL 3)
  have hW3U : W ^ 3 ≤ 0.99321232613753 :=
    le_trans (pow_le_pow_left₀ hWnn hWU 3) (by norm_num)
  have hW3pos : (0 : ℝ) < W ^ 3 := lt_of_lt_of_le (by norm_num) hW3L
  set RHO := 6377563.396 * 0.9996012717 *
      (1 - (6377563.396 ^ 2 - 6356256.910 ^ 2) / 6377563.396 ^ 2) * (W ^ 3)⁻¹ with hRHOdef
  have hRHOL : (6375772.3164952 : ℝ) ≤ RHO := by
    rw [hRHOdef, ← div_eq_mul_inv, le_div_iff₀ hW3pos]; linarith only [hW3U]
  have hRHOU : RHO ≤ 6375775.3432095 := by
    rw [hRHOdef, ← div_eq_mul_inv, div_le_iff₀ hW3pos]; linarith only [hW3L]
  have hRHOpos : (0 : ℝ) < RHO := lt_of_lt_of_le (by norm_num) hRHOL
  set VR := VV / RHO with hVRdef
  have hVRL : (1.0021541861944 : ℝ) ≤ VR := by
    rw [hVRdef, le_div_iff₀ hRHOpos]; linarith only [hRHOU, hVVL]
  have hVRU : VR ≤ 1.0021548205197 := by
    rw [hVRdef, div_le_iff₀ hRHOpos]; linarith only [hRHOL, hVVU]
  have hetaL : (0.0021541861944 : ℝ) ≤ VR - 1 := by linarith only [hVRL]
  have hetaU : VR - 1 ≤ 0.0021548205197 := by linarith only [hVRU]
  have hte := mul_mem_pp ht2L ht2U hetaL hetaU (by norm_num) (by norm_num)
  have hteL : (0.0045601249643533 : ℝ) ≤ T ^ 2 * (VR - 1) := le_trans (by norm_num) hte.1
  have hteU : T ^ 2 * (VR - 1) ≤ 0.0045630127228663 := le_trans hte.2 (by norm_num)
  have hcnn : (0 : ℝ) ≤ C := by linarith only [hcL]
  have hC3L : (0.18164619590963 : ℝ) ≤ C ^ 3 :=
    le_trans (by norm_num) (pow_le_pow_left₀ (by norm_num) hcL 3)
  have hC3U : C ^ 3 ≤ 0.18171953321713 :=
    le_trans (pow_le_pow_left₀ hcnn hcU 3) (by norm_num)
  have hC5L : (0.058260898576939 : ℝ) ≤ C ^ 5 :=
    le_trans (by norm_num) (pow_le_pow_left₀ (by norm_num) hcL 5)
  have hC5U : C ^ 5 ≤ 0.05830010732926 :=
    le_trans (pow_le_pow_left₀ hcnn hcU 5) (by norm_num)
  have hDLnn : (0 : ℝ) ≤ DL := le_trans (by norm_num) hdlL
  have hDL3L : (0.00000051749433246804 : ℝ) ≤ DL ^ 3 :=
    le_trans (by norm_num) (pow_le_pow_left₀ (by norm_num) hdlL 3)
  have hDL3U : DL ^ 3 ≤ 0.00000051749433246806 :=
    le_trans (pow_le_pow_left₀ hDLnn hdlU 3) (by norm_num)
  have hDL5L : (0.000000000033356156006536 : ℝ) ≤ DL ^ 5 :=
    le_trans (by norm_num) (pow_le_pow_left₀ (by norm_num) hdlL 5)
  have hDL5U : DL ^ 5 ≤ 0.000000000033356156006537 :=
    le_trans (pow_le_pow_left₀ hDLnn hdlU 5) (by norm_num)
  have hIV := mul_mem_pp hVVL hVVU hcL hcU (by norm_num) (by norm_num)
  have hIVL : (3618620.0611101 : ℝ) ≤ VV * C := le_trans (by norm_num) hIV.1
  have hIVU : VV * C ≤ 3619107.5586591 := le_trans hIV.2 (by norm_num)
  have hP1 := mul_mem_pp hIVL hIVU hdlL hdlU (by norm_num) (by norm_num)
  have hP1L : (29052.143844741 : ℝ) ≤ VV * C * DL := le_trans (by norm_num) hP1.1
  have hP1U : VV * C * DL ≤ 29056.057725911 := le_trans hP1.2 (by norm_num)
  have hV6L : (1064918.3250721 : ℝ) ≤ VV / 6 := by linarith only [hVVL]
  have hV6U : VV / 6 ≤ 1064918.4935852 := by linarith only [hVVU]
  have hM1 := mul_mem_pp hV6L hV6U hC3L hC3U (by norm_num) (by norm_num)
  have hM1L : (193438.3627038 : ℝ) ≤ VV / 6 * C ^ 3 := le_trans (by norm_num) hM1.1
  have hM1U : VV / 6 * C ^ 3 ≤ 193516.4915686 := le_trans hM1.2 (by norm_num)
  have hin5L : (-1.1154294738598 : ℝ) ≤ VR - T ^ 2 := by linarith only [hVRL, ht2U]
  have hin5U : VR - T ^ 2 ≤ -1.1147118534047 := by linarith only [hVRU, ht2L]
  have hVt := mul_mem_pn hM1L hM1U hin5L hin5U (by norm_num) (by norm_num)
  have hVtL : (-215853.99837356 : ℝ) ≤ VV / 6 * C ^ 3 * (VR - T ^ 2) :=
    le_trans (by norm_num) hVt.1
  have hVtU : VV / 6 * C ^ 3 * (VR - T ^ 2) ≤ -215628.03580912 :=
    le_trans hVt.2 (by norm_num)
  have hP2 := mul_mem_np hVtL hVtU hDL3L hDL3U (by norm_num) (by norm_num)
  have hP2L : (-0.11170322079889 : ℝ) ≤ VV / 6 * C ^ 3 * (VR - T ^ 2) * DL ^ 3 :=
    le_trans (by norm_num) hP2.1
  have hP2U : VV / 6 * C ^ 3 * (VR - T ^ 2) * DL ^ 3 ≤ -0.11158628645243 :=
    le_trans hP2.2 (by norm_num)
  have hV120L : (53245.916253605 : ℝ) ≤ VV / 120 := by linarith only [hVVL]
  have hV120U : VV / 120 ≤ 53245.92467926 := by linarith only [hVVU]
  have hM2 := mul_mem_pp hV120L hV120U hC5L hC5U (by norm_num) (by norm_num)
  have hM2L : (3102.1549264874 : ℝ) ≤ VV / 120 * C ^ 5 := le_trans (by norm_num) hM2.1
  have hM2U : VV / 120 * C ^ 5 ≤ 3104.2431236466 := le_trans hM2.2 (by norm_num)
  have hin6L : (-28.869877497009 : ℝ) ≤
      5 - 18 * T ^ 2 + T ^ 4 + 14 * (VR - 1) - 58 * T ^ 2 * (VR - 1) := by
    linarith only [ht2U, ht4L, hetaL, hteU]
  have hin6U : 5 - 18 * T ^ 2 + T ^ 4 + 14 * (VR - 1) - 58 * T ^ 2 * (VR - 1) ≤
      -28.853759333967 := by
    linarith only [ht2L, ht4U, hetaU, hteL]
  have hVI := mul_mem_pn hM2L hM2U hin6L hin6U (by norm_num) (by norm_num)
  have hVIL : (-89619.11870061 : ℝ) ≤ VV / 120 * C ^ 5 *
      (5 - 18 * T ^ 2 + T ^ 4 + 14 * (VR - 1) - 58 * T ^ 2 * (VR - 1)) :=
    le_trans (by norm_num) hVI.1
  have hVIU : VV / 120 * C ^ 5 *
      (5 - 18 * T ^ 2 + T ^ 4 + 14 * (VR - 1) - 58 * T ^ 2 * (VR - 1)) ≤
      -89508.831665547 := le_trans hVI.2 (by norm_num)
  have hP3 := mul_mem_np hVIL hVIU hDL5L hDL5U (by norm_num) (by norm_num)
  have hP3L : (-0.000002989349304546 : ℝ) ≤ VV / 120 * C ^ 5 *
      (5 - 18 * T ^ 2 + T ^ 4 + 14 * (VR - 1) - 58 * T ^ 2 * (VR - 1)) * DL ^ 5 :=
    le_trans (by norm_num) hP3.1
  have hP3U : VV / 120 * C ^ 5 *
      (5 - 18 * T ^ 2 + T ^ 4 + 14 * (VR - 1) - 58 * T ^ 2 * (VR - 1)) * DL ^ 5 ≤
      -0.0000029856705529987 := le_trans hP3.2 (by norm_num)
  constructor
  · linarith only [hP1L, hP2L, hP3L]
  · linarith only [hP1U, hP2U, hP3U]

/-- Claim C9: the coordinate transform at latitude 55.5 deg, longitude
-1.54 deg does NOT return the documented easting 429157 within one metre:
the computed easting lies in (429052, 429056), more than one hundred
metres away. The docstring of get_easting_northing_from_gps_lat_long
promises (429157, 623009) for this very input, so the code contradicts
its own documentation: it never applies the WGS84-to-OSGB36 datum shift
(the WGS84 ellipsoid it constructs is unused). -/
theorem easting_contradicts_documented_example :
    429052 < (get_easting_northing_from_gps_lat_long 55.5 (-1.54) false).1 ∧
    (get_easting_northing_from_gps_lat_long 55.5 (-1.54) false).1 < 429056 ∧
    1 < |(get_easting_northing_from_gps_lat_long 55.5 (-1.54) false).1 - 429157| := by
  obtain ⟨h1, h2⟩ := easting_at_docstring_point_bounds
  refine ⟨h1, h2, ?_⟩
  have hneg : (get_easting_northing_from_gps_lat_long 55.5 (-1.54) false).1 -
      429157 < 0 := by linarith
  rw [abs_of_neg hneg]
  linarith

end EWMap
